import Mathlib

/-!
Shallow embedding of the runc fuzz-harness repository (packages `libcontainer`
and `devices`): the four fuzz entry points `FuzzInit`, `FuzzStateApi`,
`FuzzFactory` and `Fuzz`, together with the helpers `newContainerWithName`,
`newTestRoot`, `createFiles` and the byte-stream consumer they drive.

Machine bytes are `Nat` values below 256; the filesystem is a characteristic
function from paths to existence; external calls whose only observable
behaviour is success or failure (file creation, directory creation, factory
construction, container creation) are driven by an explicit environment of
booleans; calls whose results the harness discards (`l.Init()`,
`factory.Load`, the container query APIs) have no modelled effect.
-/

/-- Filesystem state: which paths (files and directories alike) exist. -/
def FS : Type := String → Bool

/-- Create a path (`os.OpenFile` with `O_CREATE`, `os.MkdirAll`); idempotent. -/
def fsSet (fs : FS) (p : String) : FS := fun s => if s = p then true else fs s

/-- Remove a path (`os.RemoveAll`); removing an absent path is a no-op. -/
def fsDel (fs : FS) (p : String) : FS := fun s => if s = p then false else fs s

/-- The empty filesystem, used to evaluate runs on concrete inputs. -/
def fs0 : FS := fun _ => false

/-- Modelled from the spec: the ByteStreamConsumer (`gofuzzheaders.NewConsumer`,
§4.1), which is an external dependency, not part of this repository.  A raw
byte buffer plus a monotone read cursor. -/
structure Consumer where
  data : List Nat
  pos : Nat
deriving DecidableEq

/-- `gofuzzheaders.NewConsumer`: wrap the whole buffer, cursor at zero. -/
def newConsumer (data : List Nat) : Consumer := ⟨data, 0⟩

/-- Modelled from the spec (§4.1): read one byte, failing when the stream is
exhausted, without consuming on failure. -/
def getByte (c : Consumer) : Option (Nat × Consumer) :=
  match c.data.get? c.pos with
  | some b => some (b, ⟨c.data, c.pos + 1⟩)
  | none => none

/-- Modelled from the spec (§4.1): `GetInt` — a small non-negative integer
consumed from the stream; fails when the stream is exhausted. -/
def getInt (c : Consumer) : Option (Int × Consumer) :=
  match getByte c with
  | some (b, c1) => some ((b : Int), c1)
  | none => none

/-- Take `n` bytes from the cursor onward; fails (consuming nothing) when
fewer than `n` bytes remain. -/
def takeBytes (c : Consumer) (n : Nat) : Option (List Nat × Consumer) :=
  if c.pos + n ≤ c.data.length then
    some ((c.data.drop c.pos).take n, ⟨c.data, c.pos + n⟩)
  else none

/-- Decode a byte list as a string, one character per byte. -/
def bytesToString (bs : List Nat) : String :=
  (bs.map (fun b => Char.ofNat b)).asString

/-- Modelled from the spec (§4.1): `GetString` — a length-governed slice of the
remaining bytes; fails when the remaining bytes are insufficient. -/
def getString (c : Consumer) : Option (String × Consumer) :=
  match getByte c with
  | none => none
  | some (n, c1) =>
    match takeBytes c1 n with
    | none => none
    | some (bs, c2) => some (bytesToString bs, c2)

/-! ### Device-cgroup rule lists (package `devices`)

`EmulatorFromList` and `Transition` live in the runc subsystem under test, not
in this repository; `devices_fuzzer.go` only calls them.  They are therefore
modelled from the spec (§3, §4.6). -/

/-- Modelled from the spec (§3): a device selector — type tag plus major/minor
numbers, `none` standing for the `*` wildcard. -/
structure Selector where
  typ : Char
  major : Option Nat
  minor : Option Nat
deriving DecidableEq

/-- Modelled from the spec (§3): one device-access rule — type, major/minor
range, permission bits and the allow/deny flag. -/
structure DeviceRule where
  allow : Bool
  sel : Selector
  perms : List Char
deriving DecidableEq

/-- Split a character list on a separator character. -/
def splitOnChar (sep : Char) : List Char → List (List Char)
  | [] => [[]]
  | ch :: rest =>
    if ch = sep then [] :: splitOnChar sep rest
    else
      match splitOnChar sep rest with
      | [] => [[ch]]
      | g :: gs => (ch :: g) :: gs

/-- Parse a decimal numeral from characters; fails on empty or non-digit. -/
def parseNatChars (cs : List Char) : Option Nat :=
  if cs = [] then none
  else cs.foldl
    (fun acc c =>
      match acc with
      | none => none
      | some n => if c.isDigit then some (n * 10 + (c.toNat - 48)) else none)
    (some 0)

/-- Parse a major or minor token: `*` is the wildcard, otherwise a numeral. -/
def parseNumTok (cs : List Char) : Option (Option Nat) :=
  if cs = ['*'] then some none else (parseNatChars cs).map some

/-- Parse the allow/deny flag token. -/
def parseAllowTok (cs : List Char) : Option Bool :=
  if cs = "allow".toList then some true
  else if cs = "deny".toList then some false
  else none

/-- Modelled from the spec (§3, §4.6): parse one line of the line-oriented
device-rule text: `allow|deny TYPE MAJOR:MINOR PERMS`. -/
def parseLine (line : List Char) : Option DeviceRule :=
  match splitOnChar ' ' line with
  | [al, ty, mm, perms] =>
    match parseAllowTok al with
    | none => none
    | some allow =>
      match ty with
      | [t] =>
        if t = 'a' ∨ t = 'b' ∨ t = 'c' then
          match splitOnChar ':' mm with
          | [ma, mi] =>
            match parseNumTok ma, parseNumTok mi with
            | some major, some minor =>
              if perms = [] then none else some ⟨allow, ⟨t, major, minor⟩, perms⟩
            | _, _ => none
          | _ => none
        else none
      | _ => none
  | _ => none

/-- Modelled from the spec (§3): the rule-set emulator — a default policy flag
plus the ordered explicit rules folded so far. -/
structure Emulator where
  defaultAllow : Bool
  rules : List DeviceRule
deriving DecidableEq

/-- Modelled from the spec (§3, §4.6): fold one rule into the emulator; a
wildcard-type (`a`) rule resets the default policy and clears the explicit
rules, any other rule is appended (later rules override earlier ones at
lookup time). -/
def addRule (e : Emulator) (r : DeviceRule) : Emulator :=
  if r.sel.typ = 'a' then ⟨r.allow, []⟩
  else ⟨e.defaultAllow, e.rules ++ [r]⟩

/-- Modelled from the spec (§4.6): `EmulatorFromList` — parse a line-oriented
rule-list text into an emulator, failing on any malformed line; blank lines
are ignored; the starting policy is deny-by-default with no explicit rules. -/
def emulatorFromList (s : String) : Option Emulator :=
  ((splitOnChar '\x0a' s.toList).filter (fun l => l ≠ [])).foldl
    (fun acc l =>
      match acc with
      | none => none
      | some e => (parseLine l).map (addRule e))
    (some ⟨false, []⟩)

/-- Does a rule's selector cover a queried selector (wildcards match)? -/
def matchSel (rs qs : Selector) : Bool :=
  (rs.typ == 'a' || rs.typ == qs.typ)
    && (rs.major.isNone || rs.major == qs.major)
    && (rs.minor.isNone || rs.minor == qs.minor)

/-- Modelled from the spec (§3): the realized per-selector permission state —
start from the default policy and fold the explicit rules in order, later
matching rules overriding earlier ones. -/
def realized (e : Emulator) (s : Selector) : List Char :=
  e.rules.foldl
    (fun acc r => if matchSel r.sel s then (if r.allow then r.perms else []) else acc)
    (if e.defaultAllow then ['r', 'w', 'm'] else [])

/-- The blanket default-policy-change pseudo-rule (wildcard selector). -/
def blanketRule (allow : Bool) : DeviceRule :=
  ⟨allow, ⟨'a', none, none⟩, ['r', 'w', 'm']⟩

/-- Modelled from the spec (§4.6): `Transition` — if the default-policy flags
differ, emit a default-policy-change pseudo-rule first; then, for every
selector mentioned by either list whose realized permission differs between
source and target, emit a corrected rule carrying the target's realized
permission. -/
def transition (src tgt : Emulator) : List DeviceRule :=
  let head := if src.defaultAllow == tgt.defaultAllow then [] else [blanketRule tgt.defaultAllow]
  let sels := ((tgt.rules ++ src.rules).map (fun r => r.sel)).dedup
  let corr := (sels.filter (fun s => realized src s != realized tgt s)).map
    (fun s => (⟨realized tgt s != [], s, realized tgt s⟩ : DeviceRule))
  head ++ corr

/-- `devices_fuzzer.go`, `Fuzz`: extract two strings, parse each as a rule
list, and compute the transition between the two emulators. -/
def Fuzz (data : List Nat) : Int :=
  match getString (newConsumer data) with
  | none => -1
  | some (str1, c1) =>
    match emulatorFromList str1 with
    | none => -1
    | some emu1 =>
      match getString c1 with
      | none => -1
      | some (str2, _) =>
        match emulatorFromList str2 with
        | none => -1
        | some emu2 =>
          let _ := transition emu1 emu2
          1

/-! ### Runtime configuration and containers (package `libcontainer`) -/

/-- The namespace type tags the lifecycle harness uses (`configs.NEWUTS`,
`configs.NEWNS`). -/
inductive NamespaceType
  | newuts
  | newns
deriving DecidableEq

/-- The cgroup section of a runtime config, restricted to the one field the
harness reads (`config.Cgroups.Parent`). -/
structure Cgroup where
  parent : String
deriving DecidableEq

/-- Modelled from the spec (§3, §4.1): the runtime configuration record
(`configs.Config`, external to this repository), restricted to the fields the
harness reads or overwrites: the filesystem root, the optional cgroup section
and the namespace set. -/
structure Config where
  rootfs : String
  cgroups : Option Cgroup
  namespaces : List NamespaceType
deriving DecidableEq

/-- Modelled from the spec (§4.1): `c.GenerateStruct(config)` on a
`configs.Config` — fields are populated field-by-field from the stream,
starting at the consumer's current cursor; an exhausted extraction leaves the
field at its zero value (the harness ignores the error).  The namespace set is
left empty here: the harness overwrites it immediately afterwards. -/
def generateStructConfig (c : Consumer) : Config × Consumer :=
  let rfc1 :=
    match getString c with
    | some (s, c1) => (s, c1)
    | none => ("", c)
  let cgc2 :=
    match getByte rfc1.2 with
    | some (b, c1) =>
      if b % 2 = 1 then
        match getString c1 with
        | some (p, c2) => (some (⟨p⟩ : Cgroup), c2)
        | none => (some (⟨""⟩ : Cgroup), c1)
      else (none, c1)
    | none => (none, rfc1.2)
  (⟨rfc1.1, cgc2.1, []⟩, cgc2.2)

/-- `FuzzStateApi`'s three-way namespace selection on the extracted integer,
with Go's truncated `%` (`Int.tmod`): `ns % 3 == 0` gives the UTS-only set,
otherwise `ns % 4 == 0` gives the mount-only set, otherwise the empty set. -/
def selectNamespaces (ns : Int) : List NamespaceType :=
  if ns.tmod 3 = 0 then [NamespaceType.newuts]
  else if ns.tmod 4 = 0 then [NamespaceType.newns]
  else []

/-- Modelled from the spec (§3, §4.1): the bootstrap configuration record
(`initConfig`, external to this repository), restricted to two representative
fields populated field-by-field from the stream. -/
structure initConfig where
  args : String
  consoleWidth : Int
deriving DecidableEq

/-- Modelled from the spec (§4.1): `c.GenerateStruct(config)` on an
`initConfig`, starting at the consumer's current cursor; an exhausted
extraction leaves the field at its zero value (the harness ignores the
error). -/
def generateStructInit (c : Consumer) : initConfig × Consumer :=
  let ac1 :=
    match getString c with
    | some (s, c1) => (s, c1)
    | none => ("", c)
  let wc2 :=
    match getInt ac1.2 with
    | some (n, c1) => (n, c1)
    | none => (0, ac1.2)
  (⟨ac1.1, wc2.1⟩, wc2.2)

/-- Success/failure environment for the external calls whose only observable
behaviour in the harness is whether they return an error: the two
`os.OpenFile` calls of `FuzzInit`, the `os.MkdirAll` calls, the two factory
constructors, container creation, and the open/write pair inside
`createFiles`. -/
structure Env where
  pipeOpenOk : Bool
  consoleOpenOk : Bool
  mkdirFuzzingOk : Bool
  newCgroupfsOk : Bool
  newSystemdOk : Bool
  createOk : Bool
  mkdirRootOk : Bool
  mkdirFuzzOk : Bool
  stateOpenOk : Bool
  stateWriteOk : Bool
deriving DecidableEq

/-- The environment in which every external call succeeds. -/
def envAllOk : Env := ⟨true, true, true, true, true, true, true, true, true, true⟩

/-- The two cgroup drivers the lifecycle harness chooses between
(`Cgroupfs` and `SystemdCgroups`). -/
inductive CgroupDriver
  | cgroupfs
  | systemd
deriving DecidableEq

/-- A constructed factory: its root and the cgroup driver it was built with. -/
structure Factory where
  root : String
  driver : CgroupDriver
deriving DecidableEq

/-- A created container: the name and config passed to `Create` and the
driver of the factory that created it. -/
structure Container where
  name : String
  config : Config
  driver : CgroupDriver
deriving DecidableEq

/-- `libcontainer.New(root, driver)`: builds a factory for the given driver;
may fail per the environment. -/
def New (root : String) (driver : CgroupDriver) (env : Env) : Except Unit Factory :=
  match driver with
  | CgroupDriver.cgroupfs => if env.newCgroupfsOk then Except.ok ⟨root, driver⟩ else Except.error ()
  | CgroupDriver.systemd => if env.newSystemdOk then Except.ok ⟨root, driver⟩ else Except.error ()

/-- `f.Create(name, config)`: creates a container through factory `f`; may
fail per the environment (malformed configs are expected to be rejected). -/
def Factory.create (f : Factory) (name : String) (config : Config) (env : Env) :
    Except Unit Container :=
  if env.createOk then Except.ok ⟨name, config, f.driver⟩ else Except.error ()

/-- `newContainerWithName` (source lines 207–219): build the default
cgroupfs-backed factory; if the config has a cgroup section whose parent is
the sentinel `"system.slice"`, replace it with the systemd-backed factory;
create the container through the chosen factory. -/
def newContainerWithName (name root : String) (config : Config) (env : Env) :
    Except Unit Container :=
  match New root CgroupDriver.cgroupfs env with
  | Except.error e => Except.error e
  | Except.ok f =>
    match config.cgroups with
    | some cg =>
      if cg.parent = "system.slice" then
        match New root CgroupDriver.systemd env with
        | Except.error e => Except.error e
        | Except.ok f2 => f2.create name config env
      else f.create name config env
    | none => f.create name config env

/-- The Go condition guarding the systemd driver:
`config.Cgroups != nil && config.Cgroups.Parent == "system.slice"`. -/
def systemdSentinel (config : Config) : Bool :=
  match config.cgroups with
  | some cg => cg.parent == "system.slice"
  | none => false

/-- The record assembled by `FuzzInit` (`linuxStandardInit`), restricted to
the two fuzz-derived fields (the pipe, console socket and parent pid are
opaque handles with no modelled content). -/
structure linuxStandardInit where
  config : initConfig
  fifoFd : Int
deriving DecidableEq

/-- Outcome of a `FuzzInit` run: the returned signal, the filesystem after
return, the scratch files the run created, and the assembled bootstrap record
(when the run got that far). -/
structure InitRun where
  ret : Int
  fs : FS
  createdFiles : List String
  initState : Option linuxStandardInit

/-- Outcome of a `FuzzStateApi` or `FuzzFactory` run: the returned signal, the
filesystem after return, and the scratch files the run created. -/
structure Run where
  ret : Int
  fs : FS
  createdFiles : List String

/-- `FuzzInit` (source lines 18–52): reject inputs shorter than 5 bytes;
create `pipe.txt` and `consoleSocket.txt` (each removal deferred right after
its creation, so it runs on every later exit path); populate a fuzzed
`initConfig` from a consumer over the whole buffer; set `fifoFd` to
`int(data[0])`; invoke `l.Init()` discarding its result; return 1. -/
def FuzzInit (data : List Nat) (env : Env) (fs : FS) : InitRun :=
  if data.length < 5 then ⟨-1, fs, [], none⟩
  else if env.pipeOpenOk = false then ⟨-1, fs, [], none⟩
  else
    let fs1 := fsSet fs "pipe.txt"
    if env.consoleOpenOk = false then ⟨-1, fsDel fs1 "pipe.txt", ["pipe.txt"], none⟩
    else
      let fs2 := fsSet fs1 "consoleSocket.txt"
      let config := (generateStructInit (newConsumer data)).1
      let fifoFd : Int := (data.getD 0 0 : Nat)
      ⟨1, fsDel (fsDel fs2 "consoleSocket.txt") "pipe.txt",
        ["pipe.txt", "consoleSocket.txt"], some ⟨config, fifoFd⟩⟩

/-- `FuzzStateApi` (source lines 54–115): reject inputs shorter than 4 bytes;
build the root directory `/tmp/fuzzing` via `newTestRoot` (its removal
deferred, so it runs on every later exit path); populate a fuzzed config and
force its rootfs to the root; extract the namespace selector (`return -1` on
failure) and apply the three-way rule; extract the container name
(`return 0` on failure); create the container (`return 0` on failure); query
the four read-only APIs and return 1.  The queries and the deferred
`container.Destroy` have no modelled filesystem effect. -/
def FuzzStateApi (data : List Nat) (env : Env) (fs : FS) : Run :=
  if data.length < 4 then ⟨-1, fs, []⟩
  else if env.mkdirFuzzingOk = false then ⟨-1, fs, []⟩
  else
    let fs1 := fsSet fs "/tmp/fuzzing"
    let gc := generateStructConfig (newConsumer data)
    let config1 : Config := { gc.1 with rootfs := "/tmp/fuzzing" }
    match getInt gc.2 with
    | none => ⟨-1, fsDel fs1 "/tmp/fuzzing", []⟩
    | some (ns, c2) =>
      let config2 : Config := { config1 with namespaces := selectNamespaces ns }
      match getString c2 with
      | none => ⟨0, fsDel fs1 "/tmp/fuzzing", []⟩
      | some (containerName, _) =>
        match newContainerWithName containerName "/tmp/fuzzing" config2 env with
        | Except.error _ => ⟨0, fsDel fs1 "/tmp/fuzzing", []⟩
        | Except.ok _ => ⟨1, fsDel fs1 "/tmp/fuzzing", []⟩

/-- The fixed path of the state record written by `FuzzFactory`. -/
def stateJsonPath : String := "/tmp/fuzz-root/fuzz/state.json"

/-- Modelled from the spec (§4.5, glossary): `securejoin.SecureJoin` — a
traversal-safe join that refuses names escaping the base directory through
`..` segments. -/
def secureJoin (root name : String) : Option String :=
  if (splitOnChar '/' name.toList).contains "..".toList then none
  else some (root ++ "/" ++ name)

/-- The five stream extractions of `FuzzFactory` (source lines 148–167):
ociVersion, id, status, pid, bundle; each failure makes the harness return 0
with no further effect, so they collapse into one `Option`. -/
def extractFactoryFields (c : Consumer) :
    Option (String × String × String × Int × String) :=
  match getString c with
  | none => none
  | some (ociVersion, c1) =>
    match getString c1 with
    | none => none
    | some (id, c2) =>
      match getString c2 with
      | none => none
      | some (status, c3) =>
        match getInt c3 with
        | none => none
        | some (pid, c4) =>
          match getString c4 with
          | none => none
          | some (bundle, _) => some (ociVersion, id, status, pid, bundle)

/-- `FuzzFactory` (source lines 126–205): reject inputs shorter than 20
bytes; create `/tmp/fuzz-root` and `/tmp/fuzz-root/fuzz` (never removed);
extract the five fields (0 on exhaustion); return 0 when ociVersion, id or
bundle is shorter than 5 characters; serialize the record (`json.Marshal`
cannot fail on these field shapes) and write it through `createFiles` —
`os.OpenFile` creates `state.json`, then the write may still fail, and on
that branch `createFiles` returns an error and the harness returns 0 *before*
the deferred removal of `state.json` is registered; otherwise the removal is
deferred, the path is re-derived through `SecureJoin`, the file is opened to
confirm existence (`-1` if absent) and `factory.Load` is invoked (result
discarded); return 1. -/
def FuzzFactory (data : List Nat) (env : Env) (fs : FS) : Run :=
  if data.length < 20 then ⟨-1, fs, []⟩
  else if env.mkdirRootOk = false then ⟨-1, fs, []⟩
  else
    let fs1 := fsSet fs "/tmp/fuzz-root"
    if env.mkdirFuzzOk = false then ⟨-1, fs1, []⟩
    else
      let fs2 := fsSet fs1 "/tmp/fuzz-root/fuzz"
      match extractFactoryFields (newConsumer data) with
      | none => ⟨0, fs2, []⟩
      | some (ociVersion, id, _status, _pid, bundle) =>
        if ociVersion.length < 5 ∨ id.length < 5 ∨ bundle.length < 5 then ⟨0, fs2, []⟩
        else if env.stateOpenOk = false then ⟨0, fs2, []⟩
        else
          let fs3 := fsSet fs2 stateJsonPath
          if env.stateWriteOk = false then ⟨0, fs3, [stateJsonPath]⟩
          else
            match secureJoin "/tmp/fuzz-root/fuzz" "state.json" with
            | none => ⟨-1, fsDel fs3 stateJsonPath, [stateJsonPath]⟩
            | some p =>
              if fs3 p = false then ⟨-1, fsDel fs3 stateJsonPath, [stateJsonPath]⟩
              else ⟨1, fsDel fs3 stateJsonPath, [stateJsonPath]⟩

/-- The all-success environment except that the write inside `createFiles`
fails after the state file has been created. -/
def envNoWrite : Env := ⟨true, true, true, true, true, true, true, true, true, false⟩

/-- A config whose cgroup parent is the systemd sentinel, for evaluating
`newContainerWithName` on a concrete input. -/
def cfgSystemd : Config := ⟨"/r", some ⟨"system.slice"⟩, []⟩

/-- The container `newContainerWithName` yields on `cfgSystemd`. -/
def contSystemd : Container := ⟨"x", cfgSystemd, CgroupDriver.systemd⟩

/-- C2: namespace selection in the lifecycle harness is total and follows the
three-way modulo rule: `n % 3 == 0` (Go truncated modulo) gives the UTS-only
set, otherwise `n % 4 == 0` gives the mount-only set, otherwise the empty
set; every integer falls in exactly one case, and 12 takes the first
branch. -/
theorem C2_namespace_selection :
    (∀ n : Int,
      (n.tmod 3 = 0 ∧ selectNamespaces n = [NamespaceType.newuts])
      ∨ (¬n.tmod 3 = 0 ∧ n.tmod 4 = 0 ∧ selectNamespaces n = [NamespaceType.newns])
      ∨ (¬n.tmod 3 = 0 ∧ ¬n.tmod 4 = 0 ∧ selectNamespaces n = []))
    ∧ selectNamespaces 12 = [NamespaceType.newuts]
    ∧ selectNamespaces (-3) = [NamespaceType.newuts]
    ∧ selectNamespaces 8 = [NamespaceType.newns]
    ∧ selectNamespaces 5 = [] := by
  refine ⟨fun n => ?_, by decide, by decide, by decide, by decide⟩
  by_cases h3 : n.tmod 3 = 0
  · exact Or.inl ⟨h3, by simp [selectNamespaces, h3]⟩
  · by_cases h4 : n.tmod 4 = 0
    · exact Or.inr (Or.inl ⟨h3, h4, by simp [selectNamespaces, h3, h4]⟩)
    · exact Or.inr (Or.inr ⟨h3, h4, by simp [selectNamespaces, h3, h4]⟩)

/-- C3: every buffer shorter than the stated minimum (5 for FuzzInit, 4 for
FuzzStateApi, 20 for FuzzFactory) is rejected with -1, with the filesystem
untouched and nothing created. -/
theorem C3_min_length_rejection :
    (∀ (data : List Nat) (env : Env) (fs : FS), data.length < 5 →
      FuzzInit data env fs = ⟨-1, fs, [], none⟩)
    ∧ (∀ (data : List Nat) (env : Env) (fs : FS), data.length < 4 →
      FuzzStateApi data env fs = ⟨-1, fs, []⟩)
    ∧ (∀ (data : List Nat) (env : Env) (fs : FS), data.length < 20 →
      FuzzFactory data env fs = ⟨-1, fs, []⟩) := by
  refine ⟨fun data env fs h => ?_, fun data env fs h => ?_, fun data env fs h => ?_⟩
  · simp [FuzzInit, h]
  · simp [FuzzStateApi, h]
  · simp [FuzzFactory, h]

theorem C3_min_length_rejection_witness :
    ([] : List Nat).length < 5
    ∧ FuzzInit [] envAllOk fs0 = ⟨-1, fs0, [], none⟩
    ∧ FuzzStateApi [] envAllOk fs0 = ⟨-1, fs0, []⟩
    ∧ FuzzFactory [] envAllOk fs0 = ⟨-1, fs0, []⟩ :=
  ⟨by decide, C3_min_length_rejection.1 [] envAllOk fs0 (by decide),
    C3_min_length_rejection.2.1 [] envAllOk fs0 (by decide),
    C3_min_length_rejection.2.2 [] envAllOk fs0 (by decide)⟩

/-- C10: FuzzInit and the device-rule Fuzz entry point never return the
neutral signal 0: each returns -1 or 1 on every input. -/
theorem C10_no_neutral_signal :
    (∀ (data : List Nat) (env : Env) (fs : FS),
      (FuzzInit data env fs).ret = -1 ∨ (FuzzInit data env fs).ret = 1)
    ∧ (∀ data : List Nat, Fuzz data = -1 ∨ Fuzz data = 1) := by
  constructor
  · intro data env fs
    simp only [FuzzInit]
    split
    · exact Or.inl rfl
    · split
      · exact Or.inl rfl
      · split
        · exact Or.inl rfl
        · exact Or.inr rfl
  · intro data
    simp only [Fuzz]
    split
    · exact Or.inl rfl
    · split
      · exact Or.inl rfl
      · split
        · exact Or.inl rfl
        · split
          · exact Or.inl rfl
          · exact Or.inr rfl

/-- The transition from an emulator to itself is the empty rule sequence. -/
theorem transition_self (e : Emulator) : transition e e = [] := by
  unfold transition
  simp [bne_self_eq_false]

/-- C6: device-rule transition — identical rule-list text gives the empty
transition; allow-all to deny-all gives a default-policy change first and no
stale allow entries. -/
theorem C6_device_transition :
    (∀ (s : String) (e1 e2 : Emulator),
      emulatorFromList s = some e1 → emulatorFromList s = some e2 →
      transition e1 e2 = [])
    ∧ (∀ eA eB : Emulator,
      emulatorFromList "allow a *:* rwm" = some eA →
      emulatorFromList "deny a *:* rwm" = some eB →
      (transition eA eB).head? = some (blanketRule false)
        ∧ ∀ r ∈ transition eA eB, r.allow = false) := by
  constructor
  · intro s e1 e2 h1 h2
    rw [h1] at h2
    obtain rfl := Option.some.inj h2
    exact transition_self e1
  · intro eA eB hA hB
    have hA0 : emulatorFromList "allow a *:* rwm" = some ⟨true, []⟩ := by decide
    have hB0 : emulatorFromList "deny a *:* rwm" = some ⟨false, []⟩ := by decide
    rw [hA0] at hA
    rw [hB0] at hB
    obtain rfl := Option.some.inj hA
    obtain rfl := Option.some.inj hB
    exact ⟨by decide, by decide⟩

theorem C6_device_transition_witness :
    emulatorFromList "allow c 1:3 rw"
      = some ⟨false, [⟨true, ⟨'c', some 1, some 3⟩, ['r', 'w']⟩]⟩
    ∧ transition ⟨false, [⟨true, ⟨'c', some 1, some 3⟩, ['r', 'w']⟩]⟩
        ⟨false, [⟨true, ⟨'c', some 1, some 3⟩, ['r', 'w']⟩]⟩ = []
    ∧ (transition ⟨true, []⟩ ⟨false, []⟩).head? = some (blanketRule false) :=
  ⟨by decide,
    C6_device_transition.1 "allow c 1:3 rw" _ _ (by decide) (by decide),
    (C6_device_transition.2 ⟨true, []⟩ ⟨false, []⟩ (by decide) (by decide)).1⟩

/-- C9: the systemd cgroup driver's factory is used iff the config's cgroup
section is present with parent `"system.slice"`; otherwise the cgroupfs
driver is used; the container is created with the fuzzed name and config. -/
theorem C9_cgroup_driver_selection :
    ∀ (name root : String) (config : Config) (env : Env) (c : Container),
      newContainerWithName name root config env = Except.ok c →
      (c.driver = CgroupDriver.systemd ↔ systemdSentinel config = true)
        ∧ c.name = name ∧ c.config = config := by
  intro name root config env c h
  obtain ⟨rfs, cgs, nss⟩ := config
  cases cgs with
  | none =>
    cases hb : env.newCgroupfsOk with
    | false => simp [newContainerWithName, New, hb] at h
    | true =>
      cases hc : env.createOk with
      | false => simp [newContainerWithName, New, Factory.create, hb, hc] at h
      | true =>
        simp [newContainerWithName, New, Factory.create, hb, hc] at h
        subst h
        simp [systemdSentinel]
  | some cg =>
    by_cases hp : cg.parent = "system.slice"
    · cases hb : env.newCgroupfsOk with
      | false => simp [newContainerWithName, New, hb] at h
      | true =>
        cases hs : env.newSystemdOk with
        | false => simp [newContainerWithName, New, hb, hs, hp] at h
        | true =>
          cases hc : env.createOk with
          | false => simp [newContainerWithName, New, Factory.create, hb, hs, hc, hp] at h
          | true =>
            simp [newContainerWithName, New, Factory.create, hb, hs, hc, hp] at h
            subst h
            simp [systemdSentinel, hp]
    · cases hb : env.newCgroupfsOk with
      | false => simp [newContainerWithName, New, hb] at h
      | true =>
        cases hc : env.createOk with
        | false => simp [newContainerWithName, New, Factory.create, hb, hc, hp] at h
        | true =>
          simp [newContainerWithName, New, Factory.create, hb, hc, hp] at h
          subst h
          simp [systemdSentinel, hp]

theorem C9_cgroup_driver_selection_witness :
    newContainerWithName "x" "/r" cfgSystemd envAllOk = Except.ok contSystemd
    ∧ (contSystemd.driver = CgroupDriver.systemd ↔ systemdSentinel cfgSystemd = true)
    ∧ contSystemd.name = "x" ∧ contSystemd.config = cfgSystemd :=
  ⟨rfl, C9_cgroup_driver_selection "x" "/r" cfgSystemd envAllOk contSystemd rfl⟩

/-- C4 counterexample: a 4-byte input whose stream is exhausted when the
selector integer is extracted makes FuzzStateApi return -1, not the neutral
0 the claim states (the -1 is indistinguishable from the minimum-length
rejection). -/
theorem C4_counterexample :
    getInt (generateStructConfig (newConsumer [3, 65, 65, 65])).2 = none
    ∧ (FuzzStateApi [3, 65, 65, 65] envAllOk fs0).ret = -1
    ∧ (FuzzStateApi [3, 65, 65, 65] envAllOk fs0).ret ≠ 0 :=
  ⟨by decide, by decide, by decide⟩

/-- C4 amended: in FuzzStateApi, exhaustion at the selector-integer
extraction returns -1 (the same code as the minimum-length rejection), while
exhaustion at the name-string extraction returns the neutral 0. -/
theorem C4_exhaustion_codes :
    ∀ (data : List Nat) (env : Env) (fs : FS),
      4 ≤ data.length → env.mkdirFuzzingOk = true →
      (getInt (generateStructConfig (newConsumer data)).2 = none →
        (FuzzStateApi data env fs).ret = -1)
      ∧ (∀ (n : Int) (c2 : Consumer),
          getInt (generateStructConfig (newConsumer data)).2 = some (n, c2) →
          getString c2 = none →
          (FuzzStateApi data env fs).ret = 0) := by
  intro data env fs hlen hmk
  have hnl : ¬data.length < 4 := by omega
  constructor
  · intro hgi
    simp [FuzzStateApi, hnl, hmk, hgi]
  · intro n c2 hgi hgs
    simp [FuzzStateApi, hnl, hmk, hgi, hgs]

theorem C4_exhaustion_codes_witness :
    4 ≤ ([0, 0, 5, 200] : List Nat).length
    ∧ (FuzzStateApi [0, 0, 5, 200] envAllOk fs0).ret = 0 :=
  ⟨by decide,
    (C4_exhaustion_codes [0, 0, 5, 200] envAllOk fs0 (by decide) rfl).2 5
      ⟨[0, 0, 5, 200], 3⟩ (by decide) (by decide)⟩

/-- C5 counterexample: the initConfig FuzzInit assembles is populated by a
consumer over the *full* buffer, and that population differs from the
population of the remainder after the first byte, so the record is not built
"from the bytes after that first byte" as claimed. -/
theorem C5_counterexample :
    (FuzzInit [1, 97, 0, 0, 0] envAllOk fs0).initState
      = some ⟨(generateStructInit (newConsumer [1, 97, 0, 0, 0])).1, 1⟩
    ∧ (generateStructInit (newConsumer [1, 97, 0, 0, 0])).1
      ≠ (generateStructInit (newConsumer ([1, 97, 0, 0, 0].drop 1))).1 :=
  ⟨by decide, by decide⟩

/-- C5 amended: FuzzInit sets fifoFd to the integer value of the first byte
(always in [0,255]) and populates the fuzzed initConfig from a consumer over
the full buffer, cursor at position zero — the first byte included, not the
remainder. -/
theorem C5_fifofd_full_buffer :
    ∀ (data : List Nat) (env : Env) (fs : FS),
      5 ≤ data.length → (∀ b ∈ data, b < 256) →
      env.pipeOpenOk = true → env.consoleOpenOk = true →
      (FuzzInit data env fs).initState
        = some ⟨(generateStructInit (newConsumer data)).1, (data.getD 0 0 : Nat)⟩
      ∧ 0 ≤ ((data.getD 0 0 : Nat) : Int)
      ∧ ((data.getD 0 0 : Nat) : Int) ≤ 255 := by
  intro data env fs hlen hwf hp hc
  have hnl : ¬data.length < 5 := by omega
  refine ⟨by simp [FuzzInit, hnl, hp, hc], ?_, ?_⟩
  · omega
  · cases data with
    | nil => simp at hlen
    | cons b rest =>
      have hb : b < 256 := hwf b (List.mem_cons_self b rest)
      simp only [List.getD_cons_zero]
      omega

theorem C5_fifofd_full_buffer_witness :
    5 ≤ ([1, 97, 0, 0, 0] : List Nat).length
    ∧ ((FuzzInit [1, 97, 0, 0, 0] envAllOk fs0).initState
        = some ⟨(generateStructInit (newConsumer [1, 97, 0, 0, 0])).1,
            (([1, 97, 0, 0, 0] : List Nat).getD 0 0 : Nat)⟩
      ∧ 0 ≤ ((([1, 97, 0, 0, 0] : List Nat).getD 0 0 : Nat) : Int)
      ∧ ((([1, 97, 0, 0, 0] : List Nat).getD 0 0 : Nat) : Int) ≤ 255) :=
  ⟨by decide,
    C5_fifofd_full_buffer [1, 97, 0, 0, 0] envAllOk fs0 (by decide) (by decide) rfl rfl⟩

/-- C1 counterexample: a run of FuzzFactory in which the state file is
created but the write into it fails — `createFiles` returns an error before
the deferred removal is registered, so the created `state.json` remains on
disk after the harness returns. -/
theorem C1_counterexample :
    stateJsonPath ∈ (FuzzFactory
      [5, 97, 97, 97, 97, 97, 5, 98, 98, 98, 98, 98, 1, 97, 7, 5, 99, 99, 99, 99, 99]
      envNoWrite fs0).createdFiles
    ∧ (FuzzFactory
      [5, 97, 97, 97, 97, 97, 5, 98, 98, 98, 98, 98, 1, 97, 7, 5, 99, 99, 99, 99, 99]
      envNoWrite fs0).fs stateJsonPath = true :=
  ⟨by decide, by decide⟩

/-- C1 amended: FuzzInit removes every scratch file it created on every exit
path; FuzzFactory does so on every exit path except the one on which
`state.json` is created but the write into it fails, so the cleanup of
`state.json` holds whenever that write succeeds. -/
theorem C1_scratch_cleanup :
    (∀ (data : List Nat) (env : Env) (fs : FS),
      ∀ f ∈ (FuzzInit data env fs).createdFiles, (FuzzInit data env fs).fs f = false)
    ∧ (∀ (data : List Nat) (env : Env) (fs : FS), env.stateWriteOk = true →
      ∀ f ∈ (FuzzFactory data env fs).createdFiles, (FuzzFactory data env fs).fs f = false) := by
  constructor
  · intro data env fs f hf
    simp only [FuzzInit] at hf ⊢
    split_ifs at hf ⊢ <;> simp_all [fsDel]
    rcases hf with rfl | rfl <;> simp [fsDel]
  · intro data env fs hw f hf
    have hsj : secureJoin "/tmp/fuzz-root/fuzz" "state.json" = some stateJsonPath := by decide
    simp only [FuzzFactory, hsj, hw] at hf ⊢
    rcases hex : extractFactoryFields (newConsumer data) with _ | ⟨v1, v2, v3, n, v5⟩ <;>
      simp only [hex] at hf ⊢ <;>
      split_ifs at hf ⊢ <;>
      simp_all [fsSet, fsDel]

theorem C1_scratch_cleanup_witness :
    ("pipe.txt" ∈ (FuzzInit [0, 0, 0, 0, 0] envAllOk fs0).createdFiles
      ∧ (FuzzInit [0, 0, 0, 0, 0] envAllOk fs0).fs "pipe.txt" = false)
    ∧ (envAllOk.stateWriteOk = true
      ∧ stateJsonPath ∈ (FuzzFactory
          [5, 97, 97, 97, 97, 97, 5, 98, 98, 98, 98, 98, 1, 97, 7, 5, 99, 99, 99, 99, 99]
          envAllOk fs0).createdFiles
      ∧ (FuzzFactory
          [5, 97, 97, 97, 97, 97, 5, 98, 98, 98, 98, 98, 1, 97, 7, 5, 99, 99, 99, 99, 99]
          envAllOk fs0).fs stateJsonPath = false) :=
  ⟨⟨by decide, C1_scratch_cleanup.1 [0, 0, 0, 0, 0] envAllOk fs0 "pipe.txt" (by decide)⟩,
    rfl, by decide,
    C1_scratch_cleanup.2
      [5, 97, 97, 97, 97, 97, 5, 98, 98, 98, 98, 98, 1, 97, 7, 5, 99, 99, 99, 99, 99]
      envAllOk fs0 rfl stateJsonPath (by decide)⟩

/-- C7 counterexample: a full successful FuzzStateApi run after which the
root directory `/tmp/fuzzing` does NOT persist — the deferred
`os.RemoveAll(root)` removes it before return, contrary to the claim. -/
theorem C7_counterexample :
    (FuzzStateApi [0, 0, 5, 0] envAllOk fs0).ret = 1
    ∧ (FuzzStateApi [0, 0, 5, 0] envAllOk fs0).fs "/tmp/fuzzing" = false :=
  ⟨by decide, by decide⟩

/-- C7 amended: FuzzFactory's roots `/tmp/fuzz-root` and `/tmp/fuzz-root/fuzz`
persist after return, but FuzzStateApi's root `/tmp/fuzzing` is removed by a
deferred RemoveAll on every exit path after its creation. -/
theorem C7_sandbox_roots :
    (∀ (data : List Nat) (env : Env) (fs : FS),
      20 ≤ data.length → env.mkdirRootOk = true →
      (FuzzFactory data env fs).fs "/tmp/fuzz-root" = true)
    ∧ (∀ (data : List Nat) (env : Env) (fs : FS),
      20 ≤ data.length → env.mkdirRootOk = true → env.mkdirFuzzOk = true →
      (FuzzFactory data env fs).fs "/tmp/fuzz-root/fuzz" = true)
    ∧ (∀ (data : List Nat) (env : Env) (fs : FS),
      4 ≤ data.length → env.mkdirFuzzingOk = true →
      (FuzzStateApi data env fs).fs "/tmp/fuzzing" = false) := by
  refine ⟨fun data env fs hlen hmk => ?_, fun data env fs hlen hmk1 hmk2 => ?_,
    fun data env fs hlen hmk => ?_⟩
  · have hnl : ¬data.length < 20 := by omega
    have hsj : secureJoin "/tmp/fuzz-root/fuzz" "state.json" = some stateJsonPath := by decide
    simp only [FuzzFactory, hsj, hnl, hmk] at *
    rcases hex : extractFactoryFields (newConsumer data) with _ | ⟨v1, v2, v3, n, v5⟩ <;>
      simp only [hex] <;>
      split_ifs <;>
      simp_all [fsSet, fsDel, stateJsonPath]
  · have hnl : ¬data.length < 20 := by omega
    have hsj : secureJoin "/tmp/fuzz-root/fuzz" "state.json" = some stateJsonPath := by decide
    simp only [FuzzFactory, hsj, hnl, hmk1, hmk2] at *
    rcases hex : extractFactoryFields (newConsumer data) with _ | ⟨v1, v2, v3, n, v5⟩ <;>
      simp only [hex] <;>
      split_ifs <;>
      simp_all [fsSet, fsDel, stateJsonPath]
  · have hnl : ¬data.length < 4 := by omega
    simp [FuzzStateApi, hnl, hmk]
    split
    · simp [fsDel]
    · split
      · simp [fsDel]
      · split <;> simp [fsDel]

theorem C7_sandbox_roots_witness :
    20 ≤ ([5, 97, 97, 97, 97, 97, 5, 98, 98, 98, 98, 98, 1, 97, 7, 5, 99, 99, 99, 99, 99] : List Nat).length
    ∧ (FuzzFactory [5, 97, 97, 97, 97, 97, 5, 98, 98, 98, 98, 98, 1, 97, 7, 5, 99, 99, 99, 99, 99]
        envAllOk fs0).fs "/tmp/fuzz-root" = true
    ∧ (FuzzFactory [5, 97, 97, 97, 97, 97, 5, 98, 98, 98, 98, 98, 1, 97, 7, 5, 99, 99, 99, 99, 99]
        envAllOk fs0).fs "/tmp/fuzz-root/fuzz" = true
    ∧ 4 ≤ ([9, 9, 9, 9] : List Nat).length
    ∧ (FuzzStateApi [9, 9, 9, 9] envAllOk fs0).fs "/tmp/fuzzing" = false :=
  ⟨by decide,
    C7_sandbox_roots.1 [5, 97, 97, 97, 97, 97, 5, 98, 98, 98, 98, 98, 1, 97, 7, 5, 99, 99, 99, 99, 99]
      envAllOk fs0 (by decide) rfl,
    C7_sandbox_roots.2.1 [5, 97, 97, 97, 97, 97, 5, 98, 98, 98, 98, 98, 1, 97, 7, 5, 99, 99, 99, 99, 99]
      envAllOk fs0 (by decide) rfl rfl,
    by decide,
    C7_sandbox_roots.2.2 [9, 9, 9, 9] envAllOk fs0 (by decide) rfl⟩

/-- C8: FuzzFactory abandons with the neutral 0 — before anything is
serialized or written — exactly when one of ociVersion, id, bundle is
shorter than 5 characters; status and pid (universally quantified here,
including a 1-character status) are not filtered: once the three strings
pass, the state record is created. -/
theorem C8_factory_string_filter :
    (∀ (data : List Nat) (env : Env) (fs : FS) (v1 v2 v3 : String) (n : Int) (v5 : String),
      20 ≤ data.length → env.mkdirRootOk = true → env.mkdirFuzzOk = true →
      extractFactoryFields (newConsumer data) = some (v1, v2, v3, n, v5) →
      (v1.length < 5 ∨ v2.length < 5 ∨ v5.length < 5) →
      FuzzFactory data env fs
        = ⟨0, fsSet (fsSet fs "/tmp/fuzz-root") "/tmp/fuzz-root/fuzz", []⟩)
    ∧ (∀ (data : List Nat) (env : Env) (fs : FS) (v1 v2 v3 : String) (n : Int) (v5 : String),
      20 ≤ data.length → env.mkdirRootOk = true → env.mkdirFuzzOk = true →
      env.stateOpenOk = true →
      extractFactoryFields (newConsumer data) = some (v1, v2, v3, n, v5) →
      ¬(v1.length < 5 ∨ v2.length < 5 ∨ v5.length < 5) →
      stateJsonPath ∈ (FuzzFactory data env fs).createdFiles) := by
  constructor
  · intro data env fs v1 v2 v3 n v5 hlen hmk1 hmk2 hex hshort
    have hnl : ¬data.length < 20 := by omega
    simp [FuzzFactory, hnl, hmk1, hmk2, hex, hshort]
  · intro data env fs v1 v2 v3 n v5 hlen hmk1 hmk2 hopen hex hlong
    have hnl : ¬data.length < 20 := by omega
    have hsj : secureJoin "/tmp/fuzz-root/fuzz" "state.json" = some stateJsonPath := by decide
    simp [FuzzFactory, hnl, hmk1, hmk2, hopen, hex, hlong, hsj, fsSet]
    split_ifs <;> simp

theorem C8_factory_string_filter_witness :
    extractFactoryFields
      (newConsumer [5, 97, 97, 97, 97, 97, 1, 97, 1, 97, 7, 5, 97, 97, 97, 97, 97, 0, 0, 0])
      = some ("aaaaa", "a", "a", 7, "aaaaa")
    ∧ ("a" : String).length < 5
    ∧ FuzzFactory [5, 97, 97, 97, 97, 97, 1, 97, 1, 97, 7, 5, 97, 97, 97, 97, 97, 0, 0, 0]
        envAllOk fs0
      = ⟨0, fsSet (fsSet fs0 "/tmp/fuzz-root") "/tmp/fuzz-root/fuzz", []⟩
    ∧ stateJsonPath ∈ (FuzzFactory
        [5, 97, 97, 97, 97, 97, 5, 98, 98, 98, 98, 98, 1, 97, 7, 5, 99, 99, 99, 99, 99]
        envAllOk fs0).createdFiles :=
  ⟨by decide, by decide,
    C8_factory_string_filter.1
      [5, 97, 97, 97, 97, 97, 1, 97, 1, 97, 7, 5, 97, 97, 97, 97, 97, 0, 0, 0]
      envAllOk fs0 "aaaaa" "a" "a" 7 "aaaaa" (by decide) rfl rfl (by decide) (by decide),
    C8_factory_string_filter.2
      [5, 97, 97, 97, 97, 97, 5, 98, 98, 98, 98, 98, 1, 97, 7, 5, 99, 99, 99, 99, 99]
      envAllOk fs0 "aaaaa" "bbbbb" "a" 7 "ccccc" (by decide) rfl rfl rfl (by decide) (by decide)⟩
